import Mathlib

/-!
# Parameter extractors of the caffe2 "fill" operators

A shallow embedding of `caffe2/operators/experimental/c10/schemas/filler.cc`:
the extractors `ShapeParameter`, `ExtraShapeParameter`, `InputAsShapeParameter`,
`DTypeParameter`, `ValueParameter`, `MinParameter`, `MaxParameter` and
`ValuesParameter<T>`, each a function of the operator's argument map.

A `CAFFE_THROW` is the `error` case of `Except`; an extractor whose body has no
throw is a plain function.  Floating-point values are only moved around by this
file, never computed with, so they are carried as their IEEE-754 bit patterns.
-/

namespace Filler

/-! ## Values -/

/-- A C++ `float`, identified with its IEEE-754 binary32 bit pattern. -/
structure Float32 where
  bits : Fin 4294967296
deriving DecidableEq

/-- A C++ `double`, identified with its IEEE-754 binary64 bit pattern. -/
structure Float64 where
  bits : Fin 18446744073709551616
deriving DecidableEq

/-- The float `0.0f` (what the integer literal `0` and the literal `0.0` convert to). -/
def Float32.zero : Float32 := ⟨⟨0, by decide⟩⟩

/-- The float `1.0f` (what the integer literal `1` converts to), bits `0x3F800000`. -/
def Float32.one : Float32 := ⟨⟨1065353216, by decide⟩⟩

/-- The float `5.0f`, bits `0x40A00000`. -/
def Float32.five : Float32 := ⟨⟨1084227584, by decide⟩⟩

/-- The float `-5.0f`, bits `0xC0A00000`. -/
def Float32.negFive : Float32 := ⟨⟨3231711232, by decide⟩⟩

/-- The C++ types at which this file reads arguments and builds tensors:
`float`, `double`, `bool`, `int` (`int32_t`), `int64_t`, `std::string`. -/
inductive ElemType where
  | float
  | double
  | bool
  | int32
  | int64
  | string
deriving DecidableEq, Repr

/-- The values of each C++ type.  Integers are mathematical integers: the file
does no arithmetic on them. -/
@[reducible] def ElemType.carrier : ElemType → Type
  | .float => Float32
  | .double => Float64
  | .bool => Bool
  | .int32 => Int
  | .int64 => Int
  | .string => String

instance ElemType.carrierDecEq : (t : ElemType) → DecidableEq t.carrier
  | .float => inferInstanceAs (DecidableEq Float32)
  | .double => inferInstanceAs (DecidableEq Float64)
  | .bool => inferInstanceAs (DecidableEq Bool)
  | .int32 => inferInstanceAs (DecidableEq Int)
  | .int64 => inferInstanceAs (DecidableEq Int)
  | .string => inferInstanceAs (DecidableEq String)

/-- The content of freshly allocated storage of each type, before it is written. -/
def ElemType.fresh : (t : ElemType) → t.carrier
  | .float => Float32.zero
  | .double => ⟨⟨0, by decide⟩⟩
  | .bool => false
  | .int32 => (0 : Int)
  | .int64 => (0 : Int)
  | .string => ""

/-! ## The argument accessor -/

/-- Modelled from the spec: one entry of the Argument Map (the protobuf
`Argument` behind `caffe2::ArgumentHelper`, declared outside this file).  The
spec gives the accessor a "declared type matches stored type" predicate and
typed reads, and lets one argument satisfy several type predicates at once
(4.3, 8), so an entry is described by what each typed view of it shows:
`single t` is the scalar read at type `t` when the stored type matches `t`,
`repeated t` is the repeated list read at type `t`. -/
structure Argument where
  single : (t : ElemType) → Option t.carrier
  repeated : (t : ElemType) → List t.carrier

/-- Modelled from the spec: the Argument Map behind `caffe2::ArgumentHelper`
(declared outside this file), "read-only mapping from name to a scalar or a
repeated list; entries may be absent". -/
structure ArgumentHelper where
  arg_map : String → Option Argument

/-- Modelled from the spec: `ArgumentHelper::HasArgument`, the "presence check
by name". -/
def ArgumentHelper.HasArgument (helper : ArgumentHelper) (name : String) : Bool :=
  (helper.arg_map name).isSome

/-- Modelled from the spec: `ArgumentHelper::HasSingleArgumentOfType<T>`, the
"declared type matches stored type" predicate; false on an absent name. -/
def ArgumentHelper.HasSingleArgumentOfType (helper : ArgumentHelper) (t : ElemType)
    (name : String) : Bool :=
  match helper.arg_map name with
  | none => false
  | some a => (a.single t).isSome

/-- Modelled from the spec: `ArgumentHelper::GetSingleArgument<T>`, the
"type-checked single-value read with default": the default on an absent name,
the stored scalar when the stored type matches `T`.  The spec names no failure
of this read (7 lists three errors, none of them here, and has the extractors
built from it never fail), so the read is total, and on a stored type that does
not match it falls back to the default. -/
def ArgumentHelper.GetSingleArgument (helper : ArgumentHelper) (t : ElemType)
    (name : String) (default_value : t.carrier) : t.carrier :=
  match helper.arg_map name with
  | none => default_value
  | some a => (a.single t).getD default_value

/-- Modelled from the spec: `ArgumentHelper::GetRepeatedArgument<T>`, the
"type-checked repeated-value read": the empty list on an absent name. -/
def ArgumentHelper.GetRepeatedArgument (helper : ArgumentHelper) (t : ElemType)
    (name : String) : List t.carrier :=
  match helper.arg_map name with
  | none => []
  | some a => a.repeated t

/-- The scalar an argument map stores under a name, as the typed view `t` shows
it: `some v` exactly when the name is present with a stored type matching `t`
and value `v`. -/
def ArgumentHelper.stored (helper : ArgumentHelper) (t : ElemType) (name : String) :
    Option t.carrier :=
  (helper.arg_map name).bind (fun a => a.single t)

/-- The values of the `caffe2::TensorProto_DataType_*` tags this file names.
The enum is declared in the protobuf schema, outside this file, so its numbers
are a parameter; as labels of one `switch` they are pairwise distinct. -/
structure TensorProto_DataType where
  UNDEFINED : Int
  FLOAT : Int
  DOUBLE : Int
  BOOL : Int
  INT32 : Int
  INT64 : Int
  STRING : Int
  distinct : [UNDEFINED, FLOAT, DOUBLE, BOOL, INT32, INT64, STRING].Nodup

/-- Modelled from the spec: `caffe2::cast::GetCastDataType`, the "cast-policy
helper [that] converts a raw dtype argument into the canonical dtype enum": the
tag stored under the name, read as an `int`. -/
def GetCastDataType (E : TensorProto_DataType) (helper : ArgumentHelper) (arg : String) : Int :=
  helper.GetSingleArgument .int32 arg E.FLOAT

/-! ## Results -/

/-- The three throws of the file. -/
inductive Error where
  /-- The throw "Argument 'value' is of unexpected type" of `DTypeParameter`. -/
  | unexpectedValueType
  /-- The throw "Cannot have undefined 'dtype' argument" of `ValuesParameter`. -/
  | undefinedDType
  /-- The throw "Unexpected 'dtype' argument value: ", with the value, of `ValuesParameter`. -/
  | unexpectedDType (dtype : Int)
deriving DecidableEq, Repr

/-- Modelled from the spec: the `c10::IValue` (declared outside this file) that
`ValueParameter` returns, a "tagged scalar {float|int32|int64|bool}". -/
inductive IValue where
  | float (x : Float32)
  | int32 (n : Int)
  | int64 (n : Int)
  | bool (b : Bool)
deriving DecidableEq

/-- The tag of a scalar. -/
def IValue.tag : IValue → ElemType
  | .float _ => .float
  | .int32 _ => .int32
  | .int64 _ => .int64
  | .bool _ => .bool

/-- Modelled from the spec: the tensor literal (`at::Tensor`, declared outside
this file), a "contiguous, single-element-type buffer". -/
structure Tensor where
  elemType : ElemType
  data : List elemType.carrier
deriving DecidableEq

deriving instance DecidableEq for Except

/-! ## The extractors -/

/-- The extractor `ShapeParameter::parse`: the repeated `int64_t` argument "shape". -/
def ShapeParameter.parse (helper : ArgumentHelper) : List Int :=
  helper.GetRepeatedArgument .int64 "shape"

/-- The extractor `ExtraShapeParameter::parse`: the repeated `int64_t` argument
"extra_shape". -/
def ExtraShapeParameter.parse (helper : ArgumentHelper) : List Int :=
  helper.GetRepeatedArgument .int64 "extra_shape"

/-- The extractor `InputAsShapeParameter::parse`: the `bool` argument
"input_as_shape", default `false`. -/
def InputAsShapeParameter.parse (helper : ArgumentHelper) : Bool :=
  helper.GetSingleArgument .bool "input_as_shape" false

/-- The extractor `DTypeParameter::parse`: the `int` argument "dtype", default
FLOAT; when "dtype" is absent and "value" is present the tag is inferred from
the stored type of "value", and the extractor throws when that is neither
`float` nor `int64_t`.  (The `VLOG` line has no effect on the result.) -/
def DTypeParameter.parse (E : TensorProto_DataType) (helper : ArgumentHelper) :
    Except Error Int :=
  let dtype := helper.GetSingleArgument .int32 "dtype" E.FLOAT
  if !helper.HasArgument "dtype" && helper.HasArgument "value" then
    if helper.HasSingleArgumentOfType .float "value" then
      .ok E.FLOAT
    else if helper.HasSingleArgumentOfType .int64 "value" then
      .ok E.INT64
    else
      .error .unexpectedValueType
  else
    .ok dtype

/-- The extractor `ValueParameter::parse`: probes the stored type of "value" as
`float`, `int32_t`, `int64_t`, `bool`, in this order, and reads it at the first
type that matches; the literal `0.0` when none does. -/
def ValueParameter.parse (helper : ArgumentHelper) : IValue :=
  if helper.HasSingleArgumentOfType .float "value" then
    .float (helper.GetSingleArgument .float "value" Float32.zero)
  else if helper.HasSingleArgumentOfType .int32 "value" then
    .int32 (helper.GetSingleArgument .int32 "value" (0 : Int))
  else if helper.HasSingleArgumentOfType .int64 "value" then
    .int64 (helper.GetSingleArgument .int64 "value" (0 : Int))
  else if helper.HasSingleArgumentOfType .bool "value" then
    .bool (helper.GetSingleArgument .bool "value" false)
  else
    .float Float32.zero

/-- The extractor `MinParameter::parse`: the `float` argument "min", default `0`. -/
def MinParameter.parse (helper : ArgumentHelper) : Float32 :=
  helper.GetSingleArgument .float "min" Float32.zero

/-- The extractor `MaxParameter::parse`: the `float` argument "max", default `1`. -/
def MaxParameter.parse (helper : ArgumentHelper) : Float32 :=
  helper.GetSingleArgument .float "max" Float32.one

/-- The body of the copy loop of `ExtractValues`:
`values_data[i] = static_cast<Type>(source_values[i])`.  The source vector
already has element type `Type`, so the cast changes nothing. -/
def ValuesParameter.copyStep {α : Type} (fresh : α) (source_values : List α)
    (values_data : List α) (i : Nat) : List α :=
  values_data.set i (source_values.getD i fresh)

/-- The helper `ValuesParameter::ExtractValues<Type>`: reads "values" as a
repeated `Type`, sizes a tensor to the length of the list, and copies the list
into it with `for (int i = 0; i < source_values.size(); i++)`, which runs the
body once for each index `0, 1, .., size - 1` in turn.  The `int` counter is
carried as a natural number: a repeated argument has fewer than 2^31 elements,
so the counter never wraps. -/
def ValuesParameter.ExtractValues (Ty : ElemType) (helper : ArgumentHelper) : Tensor :=
  let source_values := helper.GetRepeatedArgument Ty "values"
  let values : List Ty.carrier := List.replicate source_values.length Ty.fresh
  let values_data :=
    (List.range source_values.length).foldl
      (ValuesParameter.copyStep Ty.fresh source_values) values
  ⟨Ty, values_data⟩

/-- The extractor `ValuesParameter<T>::parse`, for the instantiations `T` of the
file (`float`, `int`, `int64_t`): when `T` is not `float` or "dtype" is absent,
"values" is extracted at `T`; otherwise the `switch` on the dtype picks the
element type, and throws on UNDEFINED and on any other tag. -/
def ValuesParameter.parse (E : TensorProto_DataType) (T : ElemType)
    (helper : ArgumentHelper) : Except Error Tensor :=
  if !(decide (T = .float)) || !helper.HasArgument "dtype" then
    .ok (ValuesParameter.ExtractValues T helper)
  else
    let dtype := GetCastDataType E helper "dtype"
    if dtype = E.FLOAT then .ok (ValuesParameter.ExtractValues .float helper)
    else if dtype = E.DOUBLE then .ok (ValuesParameter.ExtractValues .double helper)
    else if dtype = E.BOOL then .ok (ValuesParameter.ExtractValues .bool helper)
    else if dtype = E.INT32 then .ok (ValuesParameter.ExtractValues .int32 helper)
    else if dtype = E.INT64 then .ok (ValuesParameter.ExtractValues .int64 helper)
    else if dtype = E.STRING then .ok (ValuesParameter.ExtractValues .string helper)
    else if dtype = E.UNDEFINED then .error .undefinedDType
    else .error (.unexpectedDType dtype)

/-! ## Concrete inputs -/

/-- An entry holding a scalar stored as `float`. -/
def Argument.ofFloat (x : Float32) : Argument :=
  ⟨fun t => match t with | .float => some x | _ => none, fun _ => []⟩

/-- An entry holding a scalar stored as `int` (`int32_t`). -/
def Argument.ofInt32 (n : Int) : Argument :=
  ⟨fun t => match t with | .int32 => some n | _ => none, fun _ => []⟩

/-- An entry holding a scalar stored as `int64_t`. -/
def Argument.ofInt64 (n : Int) : Argument :=
  ⟨fun t => match t with | .int64 => some n | _ => none, fun _ => []⟩

/-- An entry holding a scalar stored as a string. -/
def Argument.ofString (s : String) : Argument :=
  ⟨fun t => match t with | .string => some s | _ => none, fun _ => []⟩

/-- An entry holding a repeated list stored as `int64_t`. -/
def Argument.ofInts64 (xs : List Int) : Argument :=
  ⟨fun _ => none, fun t => match t with | .int64 => xs | _ => []⟩

/-- An entry holding a repeated list stored as `int` (`int32_t`). -/
def Argument.ofInts32 (xs : List Int) : Argument :=
  ⟨fun _ => none, fun t => match t with | .int32 => xs | _ => []⟩

/-- The argument map with the listed entries (the first entry of a name wins). -/
def ArgumentHelper.ofList (entries : List (String × Argument)) : ArgumentHelper :=
  ⟨fun name => (entries.find? (fun e => e.1 == name)).map (fun e => e.2)⟩

/-- A tag assignment for concrete runs (the numbering of the protobuf schema). -/
def tags : TensorProto_DataType :=
  ⟨0, 1, 13, 5, 2, 10, 4, by decide⟩

/-- The probe order of `ValueParameter::parse`, as the spec words it: "float,
then int32, then int64, then bool". -/
def probeOrder : List ElemType := [.float, .int32, .int64, .bool]

/-- The classification the spec words for the Value extractor: the earliest type
of the probe order whose stored-type predicate holds for "value", if any. -/
def firstMatch (helper : ArgumentHelper) : Option ElemType :=
  probeOrder.find? (fun t => helper.HasSingleArgumentOfType t "value")

/-- The tag that names each element type: FLOAT, DOUBLE, BOOL, INT32, INT64,
STRING for float, double, bool, int32, int64, string respectively. -/
def TensorProto_DataType.tagOf (E : TensorProto_DataType) : ElemType → Int
  | .float => E.FLOAT
  | .double => E.DOUBLE
  | .bool => E.BOOL
  | .int32 => E.INT32
  | .int64 => E.INT64
  | .string => E.STRING

/-- The six tags the `switch` of `ValuesParameter<float>::parse` builds a tensor for. -/
def TensorProto_DataType.supported (E : TensorProto_DataType) : List Int :=
  [E.FLOAT, E.DOUBLE, E.BOOL, E.INT32, E.INT64, E.STRING]

/-- An entry whose stored scalar matches several type predicates at once: the
listed views show the listed values. -/
def Argument.ofViews (f : Option Float32) (i32 i64 : Option Int) (b : Option Bool) :
    Argument :=
  ⟨fun t => match t with
    | .float => f
    | .int32 => i32
    | .int64 => i64
    | .bool => b
    | _ => none, fun _ => []⟩

/-! ## Registration -/

/-- The operator schemas the file defines with `C10_DEFINE_OP_SCHEMA` and
registers: `ConstantFill`, `UniformFill` and `GivenTensorFill<T>`. -/
inductive OpSchema where
  | ConstantFill
  | UniformFill
  | GivenTensorFill (T : ElemType)
deriving DecidableEq

/-- The extractors of the file, as the registrations name them. -/
inductive ParameterDef where
  | ShapeParameter
  | ExtraShapeParameter
  | InputAsShapeParameter
  | DTypeParameter
  | ValueParameter
  | MinParameter
  | MaxParameter
  | ValuesParameter (T : ElemType)
deriving DecidableEq

/-- Modelled from the spec: a Parameter, "one of {ordered sequence of int64
("shape"), ordered sequence of int64 ("extra_shape"), bool, dtype enum, tagged
scalar, float ("min"), float ("max"), tensor literal}": the `type` each
extractor declares and its `parse` returns. -/
inductive Parameter where
  | Shape (xs : List Int)
  | ExtraShape (xs : List Int)
  | InputAsShape (b : Bool)
  | DType (dtype : Int)
  | Value (v : IValue)
  | Min (x : Float32)
  | Max (x : Float32)
  | Values (tensor : Tensor)
deriving DecidableEq

/-- The `parse` of the extractor a registration names. -/
def ParameterDef.parse (E : TensorProto_DataType) :
    ParameterDef → ArgumentHelper → Except Error Parameter
  | .ShapeParameter, helper => .ok (.Shape (ShapeParameter.parse helper))
  | .ExtraShapeParameter, helper => .ok (.ExtraShape (ExtraShapeParameter.parse helper))
  | .InputAsShapeParameter, helper => .ok (.InputAsShape (InputAsShapeParameter.parse helper))
  | .DTypeParameter, helper =>
    match DTypeParameter.parse E helper with
    | .ok dtype => .ok (.DType dtype)
    | .error e => .error e
  | .ValueParameter, helper => .ok (.Value (ValueParameter.parse helper))
  | .MinParameter, helper => .ok (.Min (MinParameter.parse helper))
  | .MaxParameter, helper => .ok (.Max (MaxParameter.parse helper))
  | .ValuesParameter T, helper =>
    match ValuesParameter.parse E T helper with
    | .ok tensor => .ok (.Values tensor)
    | .error e => .error e

/-- One use of `REGISTER_C10_OPERATOR_FOR_CAFFE2_DISPATCH_WITH_ARRAY_INPUT_AND_PARAMETERS`:
the operator schema, the legacy dispatch name, the ordered extractor list. -/
structure Registration where
  opSchema : OpSchema
  name : String
  parameters : List ParameterDef
deriving DecidableEq

/-- The registrations of the file, in the order it makes them. -/
def registrations : List Registration :=
  [ ⟨.ConstantFill, "C10ConstantFill_DontUseThisOpYet",
      [.ShapeParameter, .ExtraShapeParameter, .InputAsShapeParameter, .DTypeParameter,
       .ValueParameter]⟩,
    ⟨.UniformFill, "C10UniformFill_DontUseThisOpYet",
      [.ShapeParameter, .ExtraShapeParameter, .InputAsShapeParameter, .MinParameter,
       .MaxParameter]⟩,
    ⟨.GivenTensorFill .float, "C10GivenTensorFill_DontUseThisOpYet",
      [.ShapeParameter, .ExtraShapeParameter, .InputAsShapeParameter,
       .ValuesParameter .float]⟩,
    ⟨.GivenTensorFill .int32, "C10GivenTensorIntFill_DontUseThisOpYet",
      [.ShapeParameter, .ExtraShapeParameter, .InputAsShapeParameter,
       .ValuesParameter .int32]⟩,
    ⟨.GivenTensorFill .int64, "C10GivenTensorInt64Fill_DontUseThisOpYet",
      [.ShapeParameter, .ExtraShapeParameter, .InputAsShapeParameter,
       .ValuesParameter .int64]⟩ ]

/-- The schemas the file defines with `C10_DEFINE_OP_SCHEMA`, in its order. -/
def definedSchemas : List OpSchema :=
  [.ConstantFill, .UniformFill, .GivenTensorFill .float, .GivenTensorFill .int32,
   .GivenTensorFill .int64]

/-- The ordered extractor list an operator schema is registered with, if it is
registered. -/
def parametersOf (op : OpSchema) : Option (List ParameterDef) :=
  (registrations.find? (fun r => decide (r.opSchema = op))).map (fun r => r.parameters)

/-- Modelled from the spec: the build the registration macro (declared outside
this file) makes of an operator's parameters: each extractor of the schema is
applied, in order, to the argument map ("ordered Parameter list"), and a throw
of one of them aborts the build ("construction aborts and the error propagates
to the caller"). -/
def buildParameters (E : TensorProto_DataType) :
    List ParameterDef → ArgumentHelper → Except Error (List Parameter)
  | [], _ => .ok []
  | d :: ds, helper =>
    match d.parse E helper with
    | .error e => .error e
    | .ok p =>
      match buildParameters E ds helper with
      | .error e => .error e
      | .ok ps => .ok (p :: ps)

/-- The argument map without the entry of one name. -/
def ArgumentHelper.erase (helper : ArgumentHelper) (name : String) : ArgumentHelper :=
  ⟨fun n => if n = name then none else helper.arg_map n⟩

/-! ## The accessor, in terms of what is stored -/

theorem HasSingleArgumentOfType_eq (helper : ArgumentHelper) (t : ElemType) (name : String) :
    helper.HasSingleArgumentOfType t name = (helper.stored t name).isSome := by
  unfold ArgumentHelper.HasSingleArgumentOfType ArgumentHelper.stored
  cases helper.arg_map name <;> rfl

theorem GetSingleArgument_eq (helper : ArgumentHelper) (t : ElemType) (name : String)
    (d : t.carrier) :
    helper.GetSingleArgument t name d = (helper.stored t name).getD d := by
  unfold ArgumentHelper.GetSingleArgument ArgumentHelper.stored
  cases helper.arg_map name <;> rfl

theorem HasArgument_of_stored (helper : ArgumentHelper) (t : ElemType) (name : String)
    (v : t.carrier) (h : helper.stored t name = some v) : helper.HasArgument name = true := by
  unfold ArgumentHelper.stored at h
  unfold ArgumentHelper.HasArgument
  cases hm : helper.arg_map name with
  | none => rw [hm] at h; cases h
  | some a => rfl

theorem GetSingleArgument_of_absent (helper : ArgumentHelper) (t : ElemType) (name : String)
    (d : t.carrier) (h : helper.HasArgument name = false) :
    helper.GetSingleArgument t name d = d := by
  unfold ArgumentHelper.HasArgument at h
  unfold ArgumentHelper.GetSingleArgument
  cases hm : helper.arg_map name with
  | none => rfl
  | some a => rw [hm] at h; cases h

theorem GetSingleArgument_of_stored (helper : ArgumentHelper) (t : ElemType) (name : String)
    (d v : t.carrier) (h : helper.stored t name = some v) :
    helper.GetSingleArgument t name d = v := by
  rw [GetSingleArgument_eq, h]; rfl

theorem GetRepeatedArgument_of_absent (helper : ArgumentHelper) (t : ElemType) (name : String)
    (h : helper.HasArgument name = false) : helper.GetRepeatedArgument t name = [] := by
  unfold ArgumentHelper.HasArgument at h
  unfold ArgumentHelper.GetRepeatedArgument
  cases hm : helper.arg_map name with
  | none => rfl
  | some a => rw [hm] at h; cases h

/-! ## DTypeParameter -/

/-- C1: when "dtype" is absent, `DTypeParameter::parse` returns FLOAT if "value"
is absent, FLOAT if "value" is present and stored as float, and INT64 if "value"
is present, not stored as float, and stored as int64. -/
theorem dtype_inference_when_dtype_absent (E : TensorProto_DataType) (helper : ArgumentHelper)
    (hd : helper.HasArgument "dtype" = false) :
    (helper.HasArgument "value" = false → DTypeParameter.parse E helper = .ok E.FLOAT) ∧
    (helper.HasArgument "value" = true →
      helper.HasSingleArgumentOfType .float "value" = true →
      DTypeParameter.parse E helper = .ok E.FLOAT) ∧
    (helper.HasArgument "value" = true →
      helper.HasSingleArgumentOfType .float "value" = false →
      helper.HasSingleArgumentOfType .int64 "value" = true →
      DTypeParameter.parse E helper = .ok E.INT64) := by
  refine ⟨fun hv => ?_, fun hv hf => ?_, fun hv hf hi => ?_⟩
  · simp [DTypeParameter.parse, hd, hv, GetSingleArgument_of_absent helper _ _ _ hd]
  · simp [DTypeParameter.parse, hd, hv, hf]
  · simp [DTypeParameter.parse, hd, hv, hf, hi]

/-- Witness of C1 on three maps: the empty map gives FLOAT, a float stored under
"value" gives FLOAT, value = 7 stored as int64 gives INT64. -/
theorem dtype_inference_when_dtype_absent_witness :
    DTypeParameter.parse tags (.ofList []) = .ok tags.FLOAT ∧
    DTypeParameter.parse tags (.ofList [("value", .ofFloat .five)]) = .ok tags.FLOAT ∧
    DTypeParameter.parse tags (.ofList [("value", .ofInt64 7)]) = .ok tags.INT64 :=
  ⟨(dtype_inference_when_dtype_absent tags (.ofList []) (by decide)).1 (by decide),
   (dtype_inference_when_dtype_absent tags (.ofList [("value", .ofFloat .five)])
      (by decide)).2.1 (by decide) (by decide),
   (dtype_inference_when_dtype_absent tags (.ofList [("value", .ofInt64 7)])
      (by decide)).2.2 (by decide) (by decide) (by decide)⟩

/-- C2: when "dtype" is present, `DTypeParameter::parse` succeeds with what the
`int` read of "dtype" gives, whatever "value" is; so a map that stores the tag
`d` under "dtype" gets `d` back verbatim (also `d` = UNDEFINED, also with a
string stored under "value"). -/
theorem dtype_explicit_verbatim (E : TensorProto_DataType) (helper : ArgumentHelper)
    (hd : helper.HasArgument "dtype" = true) :
    DTypeParameter.parse E helper = .ok (helper.GetSingleArgument .int32 "dtype" E.FLOAT) ∧
    ∀ d : Int, helper.stored .int32 "dtype" = some d → DTypeParameter.parse E helper = .ok d := by
  have h1 : DTypeParameter.parse E helper
      = .ok (helper.GetSingleArgument .int32 "dtype" E.FLOAT) := by
    simp [DTypeParameter.parse, hd]
  refine ⟨h1, fun d hs => ?_⟩
  rw [h1, GetSingleArgument_of_stored helper .int32 "dtype" E.FLOAT d hs]

/-- Witness of C2: dtype = UNDEFINED next to a string-typed "value" comes back
verbatim, without failure. -/
theorem dtype_explicit_verbatim_witness :
    DTypeParameter.parse tags
      (.ofList [("dtype", .ofInt32 tags.UNDEFINED), ("value", .ofString "x")])
      = .ok tags.UNDEFINED :=
  (dtype_explicit_verbatim tags
    (.ofList [("dtype", .ofInt32 tags.UNDEFINED), ("value", .ofString "x")])
    (by decide)).2 tags.UNDEFINED (by decide)

/-- C3: `DTypeParameter::parse` throws ("Argument 'value' is of unexpected
type") if and only if "dtype" is absent, "value" is present, and "value" is
stored neither as float nor as int64; in every other case it returns a dtype. -/
theorem dtype_fails_iff (E : TensorProto_DataType) (helper : ArgumentHelper) :
    (DTypeParameter.parse E helper = .error .unexpectedValueType ↔
      (helper.HasArgument "dtype" = false ∧ helper.HasArgument "value" = true ∧
       helper.HasSingleArgumentOfType .float "value" = false ∧
       helper.HasSingleArgumentOfType .int64 "value" = false)) ∧
    ((∃ e, DTypeParameter.parse E helper = .error e) ↔
      DTypeParameter.parse E helper = .error .unexpectedValueType) ∧
    (¬ (helper.HasArgument "dtype" = false ∧ helper.HasArgument "value" = true ∧
       helper.HasSingleArgumentOfType .float "value" = false ∧
       helper.HasSingleArgumentOfType .int64 "value" = false) →
      ∃ d, DTypeParameter.parse E helper = .ok d) := by
  unfold DTypeParameter.parse
  cases hd : helper.HasArgument "dtype" <;> cases hv : helper.HasArgument "value" <;>
    cases hf : helper.HasSingleArgumentOfType .float "value" <;>
    cases hi : helper.HasSingleArgumentOfType .int64 "value" <;> simp

/-- Witness of C3: a string stored under "value" with no "dtype" is the failing
case; with dtype present beside it the extractor returns. -/
theorem dtype_fails_iff_witness :
    DTypeParameter.parse tags (.ofList [("value", .ofString "x")])
      = .error .unexpectedValueType ∧
    ∃ d, DTypeParameter.parse tags
      (.ofList [("dtype", .ofInt32 tags.INT64), ("value", .ofString "x")]) = .ok d :=
  ⟨(dtype_fails_iff tags (.ofList [("value", .ofString "x")])).1.2 (by decide),
   (dtype_fails_iff tags
      (.ofList [("dtype", .ofInt32 tags.INT64), ("value", .ofString "x")])).2.2 (by decide)⟩

/-! ## ValueParameter -/

/-- C4: `ValueParameter::parse` classifies "value" by the earliest matching
predicate in the order float, int32, int64, bool: the result carries the tag of
the first type of that order whose stored-type predicate holds, with the value
read at that type (float-and-int32 gives float, int32-and-int64 gives int32,
int64-and-bool gives int64), and it is the float literal 0.0 when none holds. -/
theorem value_probe_first_match (helper : ArgumentHelper) :
    (∀ t, firstMatch helper = some t → (ValueParameter.parse helper).tag = t) ∧
    (firstMatch helper = none → ValueParameter.parse helper = .float Float32.zero) ∧
    (∀ x, helper.stored .float "value" = some x → ValueParameter.parse helper = .float x) ∧
    (∀ n, helper.HasSingleArgumentOfType .float "value" = false →
      helper.stored .int32 "value" = some n → ValueParameter.parse helper = .int32 n) ∧
    (∀ n, helper.HasSingleArgumentOfType .float "value" = false →
      helper.HasSingleArgumentOfType .int32 "value" = false →
      helper.stored .int64 "value" = some n → ValueParameter.parse helper = .int64 n) ∧
    (∀ b, helper.HasSingleArgumentOfType .float "value" = false →
      helper.HasSingleArgumentOfType .int32 "value" = false →
      helper.HasSingleArgumentOfType .int64 "value" = false →
      helper.stored .bool "value" = some b → ValueParameter.parse helper = .bool b) := by
  refine ⟨?_, ?_, ?_, ?_, ?_, ?_⟩
  · intro t
    unfold firstMatch probeOrder ValueParameter.parse
    cases hf : helper.HasSingleArgumentOfType .float "value" <;>
      cases h32 : helper.HasSingleArgumentOfType .int32 "value" <;>
      cases h64 : helper.HasSingleArgumentOfType .int64 "value" <;>
      cases hb : helper.HasSingleArgumentOfType .bool "value" <;>
      simp [List.find?, hf, h32, h64, hb, IValue.tag]
  · unfold firstMatch probeOrder ValueParameter.parse
    cases hf : helper.HasSingleArgumentOfType .float "value" <;>
      cases h32 : helper.HasSingleArgumentOfType .int32 "value" <;>
      cases h64 : helper.HasSingleArgumentOfType .int64 "value" <;>
      cases hb : helper.HasSingleArgumentOfType .bool "value" <;>
      simp [List.find?, hf, h32, h64, hb]
  · intro x hx
    have hf : helper.HasSingleArgumentOfType .float "value" = true := by
      rw [HasSingleArgumentOfType_eq, hx]; rfl
    simp [ValueParameter.parse, hf, GetSingleArgument_of_stored helper .float "value" _ x hx]
  · intro n hf hn
    have h32 : helper.HasSingleArgumentOfType .int32 "value" = true := by
      rw [HasSingleArgumentOfType_eq, hn]; rfl
    simp [ValueParameter.parse, hf, h32,
      GetSingleArgument_of_stored helper .int32 "value" _ n hn]
  · intro n hf h32 hn
    have h64 : helper.HasSingleArgumentOfType .int64 "value" = true := by
      rw [HasSingleArgumentOfType_eq, hn]; rfl
    simp [ValueParameter.parse, hf, h32, h64,
      GetSingleArgument_of_stored helper .int64 "value" _ n hn]
  · intro b hf h32 h64 hb
    have hbb : helper.HasSingleArgumentOfType .bool "value" = true := by
      rw [HasSingleArgumentOfType_eq, hb]; rfl
    simp [ValueParameter.parse, hf, h32, h64, hbb,
      GetSingleArgument_of_stored helper .bool "value" _ b hb]

/-- Witness of C4 on the three overlaps of the claim and on a string-typed
"value", which matches no probe. -/
theorem value_probe_first_match_witness :
    ValueParameter.parse (.ofList [("value", .ofViews (some .five) (some 3) none none)])
      = .float .five ∧
    ValueParameter.parse (.ofList [("value", .ofViews none (some 3) (some 4) none)])
      = .int32 3 ∧
    ValueParameter.parse (.ofList [("value", .ofViews none none (some 4) (some true))])
      = .int64 4 ∧
    ValueParameter.parse (.ofList [("value", .ofString "x")]) = .float Float32.zero :=
  ⟨(value_probe_first_match
      (.ofList [("value", .ofViews (some .five) (some 3) none none)])).2.2.1 .five (by decide),
   (value_probe_first_match
      (.ofList [("value", .ofViews none (some 3) (some 4) none)])).2.2.2.1 3
      (by decide) (by decide),
   (value_probe_first_match
      (.ofList [("value", .ofViews none none (some 4) (some true))])).2.2.2.2.1 4
      (by decide) (by decide) (by decide),
   (value_probe_first_match (.ofList [("value", .ofString "x")])).2.1 (by decide)⟩

/-! ## ValuesParameter -/

/-- After the first `k` rounds of the copy loop the buffer keeps its length and
its first `k` cells hold the first `k` source values. -/
theorem copy_loop_invariant {α : Type} (fresh : α) (source_values values : List α)
    (hlen : values.length = source_values.length) (k : Nat) (hk : k ≤ source_values.length) :
    ((List.range k).foldl (ValuesParameter.copyStep fresh source_values) values).length
        = source_values.length ∧
    ∀ j, j < k →
      ((List.range k).foldl (ValuesParameter.copyStep fresh source_values) values)[j]?
        = source_values[j]? := by
  induction k with
  | zero => exact ⟨by simpa using hlen, fun j hj => absurd hj (Nat.not_lt_zero j)⟩
  | succ k ih =>
    obtain ⟨ihlen, ihget⟩ := ih (Nat.le_of_succ_le hk)
    have hklt : k < source_values.length := hk
    rw [List.range_succ, List.foldl_append]
    simp only [List.foldl_cons, List.foldl_nil, ValuesParameter.copyStep]
    refine ⟨by rw [List.length_set]; exact ihlen, fun j hj => ?_⟩
    by_cases hjk : j = k
    · subst hjk
      rw [List.getElem?_set_self (by rw [ihlen]; exact hklt)]
      rw [List.getD_eq_getElem?_getD, List.getElem?_eq_getElem hklt]
      rfl
    · rw [List.getElem?_set_ne (fun h => hjk h.symm)]
      exact ihget j (by omega)

/-- The copy loop, run to its end on a buffer of the source's length, leaves
exactly the source list in the buffer. -/
theorem copy_loop_result {α : Type} (fresh : α) (source_values : List α) :
    (List.range source_values.length).foldl (ValuesParameter.copyStep fresh source_values)
      (List.replicate source_values.length fresh) = source_values := by
  obtain ⟨hl, hg⟩ := copy_loop_invariant fresh source_values
    (List.replicate source_values.length fresh) (by simp) source_values.length (Nat.le_refl _)
  apply List.ext_getElem? 
  intro j
  by_cases hj : j < source_values.length
  · exact hg j hj
  · rw [List.getElem?_eq_none (by omega), List.getElem?_eq_none (by omega)]

/-- The tensor `ExtractValues<Type>` builds: element type `Type`, contents the
repeated argument "values" read at `Type`. -/
theorem ExtractValues_eq (Ty : ElemType) (helper : ArgumentHelper) :
    ValuesParameter.ExtractValues Ty helper
      = ⟨Ty, helper.GetRepeatedArgument Ty "values"⟩ := by
  unfold ValuesParameter.ExtractValues
  simp only [copy_loop_result]

/-- The `switch` of `ValuesParameter<float>::parse` on a tag naming an element type
reaches the case of that type. -/
theorem switch_on_tagOf (E : TensorProto_DataType) (helper : ArgumentHelper) (t : ElemType)
    (hd : helper.stored .int32 "dtype" = some (E.tagOf t)) :
    ValuesParameter.parse E .float helper = .ok (ValuesParameter.ExtractValues t helper) := by
  have hp := HasArgument_of_stored helper .int32 "dtype" _ hd
  have hg : GetCastDataType E helper "dtype" = E.tagOf t :=
    GetSingleArgument_of_stored helper .int32 "dtype" E.FLOAT _ hd
  have hn := E.distinct
  simp only [List.nodup_cons, List.mem_cons, List.mem_singleton, not_or] at hn
  obtain ⟨-, ⟨h12, h13, h14, h15, h16, -⟩, ⟨h23, h24, h25, h26, -⟩, ⟨h34, h35, h36, -⟩,
    ⟨h45, h46, -⟩, ⟨h56, -⟩, -⟩ := hn
  unfold ValuesParameter.parse
  simp only [hp, hg]
  cases t <;> simp [TensorProto_DataType.tagOf, *, Ne.symm h12, Ne.symm h13, Ne.symm h14,
    Ne.symm h15, Ne.symm h16, Ne.symm h23, Ne.symm h24, Ne.symm h25, Ne.symm h26,
    Ne.symm h34, Ne.symm h35, Ne.symm h36, Ne.symm h45, Ne.symm h46, Ne.symm h56]

/-- The instantiations of `ValuesParameter` at a type other than `float` never
look at "dtype". -/
theorem parse_nonfloat (E : TensorProto_DataType) (T : ElemType) (hT : T ≠ .float)
    (helper : ArgumentHelper) :
    ValuesParameter.parse E T helper = .ok (ValuesParameter.ExtractValues T helper) := by
  unfold ValuesParameter.parse
  simp [hT]

/-- The repeated read of a name depends only on the entry under that name. -/
theorem GetRepeatedArgument_congr (h₁ h₂ : ArgumentHelper) (t : ElemType) (name : String)
    (h : h₁.arg_map name = h₂.arg_map name) :
    h₁.GetRepeatedArgument t name = h₂.GetRepeatedArgument t name := by
  unfold ArgumentHelper.GetRepeatedArgument
  rw [h]

/-- C5: `ValuesParameter<float>::parse` with "dtype" present dispatches on the
dtype: for each of FLOAT, DOUBLE, BOOL, INT32, INT64, STRING stored under
"dtype" it returns a tensor of the element type that tag names (float, double,
bool, int32, int64, string), whose contents are "values" read as a repeated
list of that type. -/
theorem values_float_dispatches_on_dtype (E : TensorProto_DataType) (helper : ArgumentHelper)
    (t : ElemType) (hd : helper.stored .int32 "dtype" = some (E.tagOf t)) :
    ValuesParameter.parse E .float helper
      = .ok ⟨t, helper.GetRepeatedArgument t "values"⟩ := by
  rw [switch_on_tagOf E helper t hd, ExtractValues_eq]

/-- Witness of C5, the case the claim singles out: dtype = INT64 with
values = [1, 2, 3] gives an int64 tensor with contents [1, 2, 3]. -/
theorem values_float_dispatches_on_dtype_witness :
    ValuesParameter.parse tags .float
      (.ofList [("dtype", .ofInt32 tags.INT64), ("values", .ofInts64 [1, 2, 3])])
      = .ok ⟨.int64, [1, 2, 3]⟩ :=
  values_float_dispatches_on_dtype tags
    (.ofList [("dtype", .ofInt32 tags.INT64), ("values", .ofInts64 [1, 2, 3])])
    .int64 (by decide)

/-- C6: `ValuesParameter<int32>` and `ValuesParameter<int64>` ignore "dtype": on
two argument maps that agree on "values" (whatever either holds under "dtype":
nothing, UNDEFINED, a tag outside the enum) the outcome is the same, namely
"values" read as a repeated `T` in a tensor of element type `T`. -/
theorem values_int_ignores_dtype (E : TensorProto_DataType) (T : ElemType)
    (hT : T = .int32 ∨ T = .int64) (h₁ h₂ : ArgumentHelper)
    (hv : h₁.arg_map "values" = h₂.arg_map "values") :
    ValuesParameter.parse E T h₁ = ValuesParameter.parse E T h₂ ∧
    ValuesParameter.parse E T h₁ = .ok ⟨T, h₁.GetRepeatedArgument T "values"⟩ := by
  have hne : T ≠ .float := by
    rcases hT with h | h <;> rw [h] <;> decide
  rw [parse_nonfloat E T hne h₁, parse_nonfloat E T hne h₂, ExtractValues_eq, ExtractValues_eq,
    GetRepeatedArgument_congr h₁ h₂ T "values" hv]
  exact ⟨rfl, rfl⟩

/-- Witness of C6: the int32 instantiation on values = [1, 2, 3] gives the same
int32 tensor with no "dtype" and with dtype = UNDEFINED; the int64 instantiation
gives the same int64 tensor with dtype = INT32 and with the tag 99 of no type. -/
theorem values_int_ignores_dtype_witness :
    (ValuesParameter.parse tags .int32 (.ofList [("values", .ofInts32 [1, 2, 3])])
      = ValuesParameter.parse tags .int32
          (.ofList [("dtype", .ofInt32 tags.UNDEFINED), ("values", .ofInts32 [1, 2, 3])]) ∧
     ValuesParameter.parse tags .int32 (.ofList [("values", .ofInts32 [1, 2, 3])])
      = .ok ⟨.int32, [1, 2, 3]⟩) ∧
    (ValuesParameter.parse tags .int64
          (.ofList [("dtype", .ofInt32 tags.INT32), ("values", .ofInts64 [4, 5])])
      = ValuesParameter.parse tags .int64
          (.ofList [("dtype", .ofInt32 99), ("values", .ofInts64 [4, 5])]) ∧
     ValuesParameter.parse tags .int64
          (.ofList [("dtype", .ofInt32 tags.INT32), ("values", .ofInts64 [4, 5])])
      = .ok ⟨.int64, [4, 5]⟩) :=
  ⟨values_int_ignores_dtype tags .int32 (Or.inl rfl)
      (.ofList [("values", .ofInts32 [1, 2, 3])])
      (.ofList [("dtype", .ofInt32 tags.UNDEFINED), ("values", .ofInts32 [1, 2, 3])])
      rfl,
   values_int_ignores_dtype tags .int64 (Or.inr rfl)
      (.ofList [("dtype", .ofInt32 tags.INT32), ("values", .ofInts64 [4, 5])])
      (.ofList [("dtype", .ofInt32 99), ("values", .ofInts64 [4, 5])])
      rfl⟩

/-- C7: `ValuesParameter<float>::parse` rejects bad dtypes: when the tag stored
under "dtype" is UNDEFINED, or is any value outside FLOAT, DOUBLE, BOOL, INT32,
INT64, STRING, the extractor throws ("Cannot have undefined 'dtype' argument"
for UNDEFINED, "Unexpected 'dtype' argument value" otherwise) and returns no
tensor, whatever "values" contains. -/
theorem values_float_rejects_bad_dtype (E : TensorProto_DataType) (helper : ArgumentHelper)
    (d : Int) (hd : helper.stored .int32 "dtype" = some d)
    (hbad : d = E.UNDEFINED ∨ d ∉ E.supported) :
    ValuesParameter.parse E .float helper
      = .error (if d = E.UNDEFINED then .undefinedDType else .unexpectedDType d) ∧
    ∀ tensor, ValuesParameter.parse E .float helper ≠ .ok tensor := by
  have hp := HasArgument_of_stored helper .int32 "dtype" _ hd
  have hg : GetCastDataType E helper "dtype" = d :=
    GetSingleArgument_of_stored helper .int32 "dtype" E.FLOAT _ hd
  have hout : d ∉ E.supported := by
    rcases hbad with h | h
    · have hn := E.distinct
      simp only [List.nodup_cons, List.mem_cons, not_or] at hn
      rw [h]
      simp only [TensorProto_DataType.supported, List.mem_cons, List.mem_singleton, not_or,
        List.not_mem_nil, or_false]
      exact ⟨hn.1.1, hn.1.2.1, hn.1.2.2.1, hn.1.2.2.2.1, hn.1.2.2.2.2.1, hn.1.2.2.2.2.2.1⟩
    · exact h
  simp only [TensorProto_DataType.supported, List.mem_cons, List.mem_singleton, not_or,
    List.not_mem_nil, or_false] at hout
  obtain ⟨o1, o2, o3, o4, o5, o6⟩ := hout
  have hres : ValuesParameter.parse E .float helper
      = .error (if d = E.UNDEFINED then .undefinedDType else .unexpectedDType d) := by
    unfold ValuesParameter.parse
    simp only [hp, hg, if_neg o1, if_neg o2, if_neg o3, if_neg o4, if_neg o5, if_neg o6]
    simp only [decide_True, Bool.not_true, Bool.or_self, Bool.false_eq_true, if_false]
    by_cases hu : d = E.UNDEFINED
    · rw [if_pos hu, if_pos hu]
    · rw [if_neg hu, if_neg hu]
  refine ⟨hres, fun tensor h => ?_⟩
  rw [hres] at h
  cases h

/-- Witness of C7: dtype = UNDEFINED and dtype = 99 (no tag of the enum), each
beside a well-formed "values", both throw. -/
theorem values_float_rejects_bad_dtype_witness :
    ValuesParameter.parse tags .float
      (.ofList [("dtype", .ofInt32 tags.UNDEFINED), ("values", .ofInts64 [1, 2, 3])])
      = .error .undefinedDType ∧
    ValuesParameter.parse tags .float
      (.ofList [("dtype", .ofInt32 99), ("values", .ofInts64 [1, 2, 3])])
      = .error (.unexpectedDType 99) :=
  ⟨(values_float_rejects_bad_dtype tags
      (.ofList [("dtype", .ofInt32 tags.UNDEFINED), ("values", .ofInts64 [1, 2, 3])])
      tags.UNDEFINED (by decide) (Or.inl rfl)).1,
   (values_float_rejects_bad_dtype tags
      (.ofList [("dtype", .ofInt32 99), ("values", .ofInts64 [1, 2, 3])])
      99 (by decide) (Or.inr (by decide))).1⟩

/-- C8: tensor construction preserves the list: for every element type,
`ExtractValues` returns a tensor of that type with exactly as many elements as
the repeated "values" list read at that type, its i-th element being the i-th
list element, for every index below the length. -/
theorem extract_values_preserves_list (Ty : ElemType) (helper : ArgumentHelper) :
    ∃ data : List Ty.carrier,
      ValuesParameter.ExtractValues Ty helper = ⟨Ty, data⟩ ∧
      data.length = (helper.GetRepeatedArgument Ty "values").length ∧
      ∀ i, i < (helper.GetRepeatedArgument Ty "values").length →
        data[i]? = (helper.GetRepeatedArgument Ty "values")[i]? ∧ (data[i]?).isSome = true := by
  refine ⟨helper.GetRepeatedArgument Ty "values", ExtractValues_eq Ty helper, rfl,
    fun i hi => ⟨rfl, ?_⟩⟩
  rw [List.getElem?_eq_getElem hi]
  rfl

/-- Witness of C8: the list [1, 2, 3] read as int64 becomes the buffer [1, 2, 3]. -/
theorem extract_values_preserves_list_witness :
    ∃ data : List Int,
      ValuesParameter.ExtractValues .int64 (.ofList [("values", .ofInts64 [1, 2, 3])])
        = ⟨.int64, data⟩ ∧
      data.length = 3 ∧ data[0]? = some 1 ∧ data[1]? = some 2 ∧ data[2]? = some 3 := by
  obtain ⟨data, h, hl, hi⟩ :=
    extract_values_preserves_list .int64 (.ofList [("values", .ofInts64 [1, 2, 3])])
  exact ⟨data, h, hl, (hi 0 (by decide)).1, (hi 1 (by decide)).1, (hi 2 (by decide)).1⟩

/-! ## Shape, ExtraShape, InputAsShape, Min, Max -/

/-- C9: the extractors with documented defaults never fail: on every argument
map `ShapeParameter`, `ExtraShapeParameter`, `InputAsShapeParameter`,
`MinParameter` and `MaxParameter` each return a value, and when their argument
is absent they return the empty sequence, the empty sequence, false, 0.0 and
1.0 respectively. -/
theorem defaulted_extractors_total (helper : ArgumentHelper) :
    (∃ shape extra flag lo hi,
      ShapeParameter.parse helper = shape ∧ ExtraShapeParameter.parse helper = extra ∧
      InputAsShapeParameter.parse helper = flag ∧
      MinParameter.parse helper = lo ∧ MaxParameter.parse helper = hi) ∧
    (helper.HasArgument "shape" = false → ShapeParameter.parse helper = []) ∧
    (helper.HasArgument "extra_shape" = false → ExtraShapeParameter.parse helper = []) ∧
    (helper.HasArgument "input_as_shape" = false →
      InputAsShapeParameter.parse helper = false) ∧
    (helper.HasArgument "min" = false → MinParameter.parse helper = Float32.zero) ∧
    (helper.HasArgument "max" = false → MaxParameter.parse helper = Float32.one) :=
  ⟨⟨_, _, _, _, _, rfl, rfl, rfl, rfl, rfl⟩,
   fun h => GetRepeatedArgument_of_absent helper .int64 "shape" h,
   fun h => GetRepeatedArgument_of_absent helper .int64 "extra_shape" h,
   fun h => GetSingleArgument_of_absent helper .bool "input_as_shape" false h,
   fun h => GetSingleArgument_of_absent helper .float "min" Float32.zero h,
   fun h => GetSingleArgument_of_absent helper .float "max" Float32.one h⟩

/-- Witness of C9: on the empty argument map the five extractors return
[], [], false, 0.0 and 1.0. -/
theorem defaulted_extractors_total_witness :
    ShapeParameter.parse (.ofList []) = [] ∧ ExtraShapeParameter.parse (.ofList []) = [] ∧
    InputAsShapeParameter.parse (.ofList []) = false ∧
    MinParameter.parse (.ofList []) = Float32.zero ∧
    MaxParameter.parse (.ofList []) = Float32.one :=
  ⟨(defaulted_extractors_total (.ofList [])).2.1 (by decide),
   (defaulted_extractors_total (.ofList [])).2.2.1 (by decide),
   (defaulted_extractors_total (.ofList [])).2.2.2.1 (by decide),
   (defaulted_extractors_total (.ofList [])).2.2.2.2.1 (by decide),
   (defaulted_extractors_total (.ofList [])).2.2.2.2.2 (by decide)⟩

/-- C10: Min/Max round trip without validation: for every pair of floats `a`,
`b` stored under "min" and "max", `MinParameter::parse` returns exactly `a` and
`MaxParameter::parse` returns exactly `b`; nothing is assumed of the order of
`a` and `b`, so also when a > b. -/
theorem min_max_round_trip (helper : ArgumentHelper) (a b : Float32)
    (ha : helper.stored .float "min" = some a) (hb : helper.stored .float "max" = some b) :
    MinParameter.parse helper = a ∧ MaxParameter.parse helper = b :=
  ⟨GetSingleArgument_of_stored helper .float "min" Float32.zero a ha,
   GetSingleArgument_of_stored helper .float "max" Float32.one b hb⟩

/-- Witness of C10: min = -5.0, max = 5.0 yields (-5.0, 5.0), and the swapped
pair min = 5.0, max = -5.0 yields (5.0, -5.0). -/
theorem min_max_round_trip_witness :
    (MinParameter.parse (.ofList [("min", .ofFloat .negFive), ("max", .ofFloat .five)])
        = .negFive ∧
     MaxParameter.parse (.ofList [("min", .ofFloat .negFive), ("max", .ofFloat .five)])
        = .five) ∧
    (MinParameter.parse (.ofList [("min", .ofFloat .five), ("max", .ofFloat .negFive)])
        = .five ∧
     MaxParameter.parse (.ofList [("min", .ofFloat .five), ("max", .ofFloat .negFive)])
        = .negFive) :=
  ⟨min_max_round_trip (.ofList [("min", .ofFloat .negFive), ("max", .ofFloat .five)])
      .negFive .five (by decide) (by decide),
   min_max_round_trip (.ofList [("min", .ofFloat .five), ("max", .ofFloat .negFive)])
      .five .negFive (by decide) (by decide)⟩

/-! ## Registration and the build of an operator's parameters -/

/-- A stored-type predicate is false on an absent name. -/
theorem HasSingleArgumentOfType_of_absent (helper : ArgumentHelper) (t : ElemType)
    (name : String) (h : helper.HasArgument name = false) :
    helper.HasSingleArgumentOfType t name = false := by
  unfold ArgumentHelper.HasArgument at h
  unfold ArgumentHelper.HasSingleArgumentOfType
  cases hm : helper.arg_map name with
  | none => rfl
  | some a => rw [hm] at h; cases h

/-- C11: ConstantFill end to end: for every shape list `s` and every int64 `v`,
building the parameters ConstantFill is registered with from the map
{shape = s, value = v stored as int64, no dtype} succeeds and yields Shape = s,
ExtraShape = [], InputAsShape = false, DType = INT64, Value = v. -/
theorem constant_fill_end_to_end (E : TensorProto_DataType) (s : List Int) (v : Int) :
    ∃ defs, parametersOf .ConstantFill = some defs ∧
      buildParameters E defs (.ofList [("shape", .ofInts64 s), ("value", .ofInt64 v)])
        = .ok [.Shape s, .ExtraShape [], .InputAsShape false, .DType E.INT64,
               .Value (.int64 v)] :=
  ⟨[.ShapeParameter, .ExtraShapeParameter, .InputAsShapeParameter, .DTypeParameter,
    .ValueParameter], by decide, rfl⟩

/-- Witness of C11: s = [2, 3] and v = 7. -/
theorem constant_fill_end_to_end_witness :
    ∃ defs, parametersOf .ConstantFill = some defs ∧
      buildParameters tags defs (.ofList [("shape", .ofInts64 [2, 3]), ("value", .ofInt64 7)])
        = .ok [.Shape [2, 3], .ExtraShape [], .InputAsShape false, .DType tags.INT64,
               .Value (.int64 7)] :=
  constant_fill_end_to_end tags [2, 3] 7

/-- C12: each operator variant is registered with its documented ordered
parameter schema: ConstantFill with [Shape, ExtraShape, InputAsShape, DType,
Value] (length 5), UniformFill with [Shape, ExtraShape, InputAsShape, Min, Max]
(length 5), and GivenTensorFill<T> with [Shape, ExtraShape, InputAsShape,
Values<T>] (length 4), the Values extractor at the operator's own `T`, for each
`T` of float, int32, int64. -/
theorem registered_parameter_schemas :
    parametersOf .ConstantFill
      = some [.ShapeParameter, .ExtraShapeParameter, .InputAsShapeParameter,
              .DTypeParameter, .ValueParameter] ∧
    (parametersOf .ConstantFill).map List.length = some 5 ∧
    parametersOf .UniformFill
      = some [.ShapeParameter, .ExtraShapeParameter, .InputAsShapeParameter,
              .MinParameter, .MaxParameter] ∧
    (parametersOf .UniformFill).map List.length = some 5 ∧
    ∀ T : ElemType, T = .float ∨ T = .int32 ∨ T = .int64 →
      parametersOf (.GivenTensorFill T)
        = some [.ShapeParameter, .ExtraShapeParameter, .InputAsShapeParameter,
                .ValuesParameter T] ∧
      (parametersOf (.GivenTensorFill T)).map List.length = some 4 := by
  refine ⟨by decide, by decide, by decide, by decide, fun T hT => ?_⟩
  rcases hT with h | h | h <;> subst h <;> exact ⟨by decide, by decide⟩

/-- Witness of C12 at `T` = int32. -/
theorem registered_parameter_schemas_witness :
    parametersOf (.GivenTensorFill .int32)
      = some [.ShapeParameter, .ExtraShapeParameter, .InputAsShapeParameter,
              .ValuesParameter .int32] :=
  (registered_parameter_schemas.2.2.2.2 .int32 (Or.inr (Or.inl rfl))).1

/-- C13, as stated, fails: the file makes five registrations, not six. -/
theorem registrations_not_six : registrations.length ≠ 6 := by decide

/-- C13, amended: registration produces exactly five operator bindings, one for
each of the five schemas the file defines (ConstantFill, UniformFill and
GivenTensorFill at float, int32, int64), and their legacy dispatch names are
pairwise distinct. -/
theorem registrations_five_distinct :
    registrations.length = 5 ∧
    registrations.map (fun r => r.opSchema) = definedSchemas ∧
    definedSchemas.Nodup ∧
    (registrations.map (fun r => r.name)).Nodup := by
  refine ⟨by decide, by decide, by decide, by decide⟩

/-- C14, as stated, fails: `DTypeParameter` throws on the map that stores a
string under "value" and has no "dtype", so it returns no parameter there. -/
theorem dtype_extractor_not_total :
    ParameterDef.parse tags .DTypeParameter (.ofList [("value", .ofString "x")])
      = .error .unexpectedValueType ∧
    ¬ ∃ p, ParameterDef.parse tags .DTypeParameter (.ofList [("value", .ofString "x")])
      = .ok p := by
  have h : ParameterDef.parse tags .DTypeParameter (.ofList [("value", .ofString "x")])
      = .error .unexpectedValueType := by decide
  refine ⟨h, fun ⟨p, hp⟩ => ?_⟩
  rw [h] at hp
  cases hp

/-- `ValuesParameter<float>::parse` returns a tensor exactly when "dtype" is
absent or the tag read from it is one of the six the `switch` builds for. -/
theorem values_float_ok_iff (E : TensorProto_DataType) (helper : ArgumentHelper) :
    (∃ tensor, ValuesParameter.parse E .float helper = .ok tensor) ↔
      (helper.HasArgument "dtype" = false ∨
        GetCastDataType E helper "dtype" ∈ E.supported) := by
  unfold ValuesParameter.parse
  cases hp : helper.HasArgument "dtype"
  · simp
  · simp only [TensorProto_DataType.supported, List.mem_cons, List.mem_singleton,
      List.not_mem_nil, or_false]
    simp only [decide_True, Bool.not_true, Bool.or_self, Bool.false_eq_true, if_false]
    generalize GetCastDataType E helper "dtype" = d
    split_ifs with h1 h2 h3 h4 h5 h6 h7
    · simp [h1]
    · simp [h2]
    · simp [h3]
    · simp [h4]
    · simp [h5]
    · simp [h6]
    · simp [h1, h2, h3, h4, h5, h6]
    · simp [h1, h2, h3, h4, h5, h6]

/-- C14, amended: every extractor other than DType and Values<float> is a total
function of the argument map: Shape, ExtraShape, InputAsShape, Value, Min, Max,
Values<int32> and Values<int64> return a parameter on every argument map.
DType returns one unless "dtype" is absent and "value" is present and stored
neither as float nor as int64; Values<float> returns one unless "dtype" is
present and the tag read from it is not one of FLOAT, DOUBLE, BOOL, INT32,
INT64, STRING. -/
theorem extractors_total_but_dtype_and_values_float (E : TensorProto_DataType)
    (helper : ArgumentHelper) :
    (∀ d : ParameterDef, d ≠ .DTypeParameter → d ≠ .ValuesParameter .float →
      ∃ p, d.parse E helper = .ok p) ∧
    ((∃ p, ParameterDef.parse E .DTypeParameter helper = .ok p) ↔
      ¬ (helper.HasArgument "dtype" = false ∧ helper.HasArgument "value" = true ∧
         helper.HasSingleArgumentOfType .float "value" = false ∧
         helper.HasSingleArgumentOfType .int64 "value" = false)) ∧
    ((∃ p, ParameterDef.parse E (.ValuesParameter .float) helper = .ok p) ↔
      (helper.HasArgument "dtype" = false ∨
        GetCastDataType E helper "dtype" ∈ E.supported)) := by
  refine ⟨fun d hd hv => ?_, ?_, ?_⟩
  · cases d with
    | ShapeParameter => exact ⟨_, rfl⟩
    | ExtraShapeParameter => exact ⟨_, rfl⟩
    | InputAsShapeParameter => exact ⟨_, rfl⟩
    | DTypeParameter => exact absurd rfl hd
    | ValueParameter => exact ⟨_, rfl⟩
    | MinParameter => exact ⟨_, rfl⟩
    | MaxParameter => exact ⟨_, rfl⟩
    | ValuesParameter T =>
      have hT : T ≠ .float := fun h => hv (by rw [h])
      refine ⟨.Values (ValuesParameter.ExtractValues T helper), ?_⟩
      simp only [ParameterDef.parse, parse_nonfloat E T hT helper]
  · simp only [ParameterDef.parse]
    unfold DTypeParameter.parse
    cases hd : helper.HasArgument "dtype" <;> cases hv : helper.HasArgument "value" <;>
      cases hf : helper.HasSingleArgumentOfType .float "value" <;>
      cases hi : helper.HasSingleArgumentOfType .int64 "value" <;> simp
  · rw [← values_float_ok_iff]
    simp only [ParameterDef.parse]
    constructor
    · rintro ⟨p, hp⟩
      cases hr : ValuesParameter.parse E .float helper with
      | ok tensor => exact ⟨tensor, rfl⟩
      | error e => rw [hr] at hp; cases hp
    · rintro ⟨tensor, ht⟩
      exact ⟨.Values tensor, by rw [ht]⟩

/-- Witness of C14 (amended) on the map that stores a string under "value": the
Value extractor and Values<int32> return there, and Values<float> returns too,
"dtype" being absent. -/
theorem extractors_total_but_dtype_and_values_float_witness :
    (∃ p, ParameterDef.parse tags .ValueParameter (.ofList [("value", .ofString "x")])
      = .ok p) ∧
    (∃ p, ParameterDef.parse tags (.ValuesParameter .int32)
      (.ofList [("value", .ofString "x")]) = .ok p) ∧
    (∃ p, ParameterDef.parse tags (.ValuesParameter .float)
      (.ofList [("value", .ofString "x")]) = .ok p) :=
  ⟨(extractors_total_but_dtype_and_values_float tags
      (.ofList [("value", .ofString "x")])).1 .ValueParameter (by decide) (by decide),
   (extractors_total_but_dtype_and_values_float tags
      (.ofList [("value", .ofString "x")])).1 (.ValuesParameter .int32)
      (by decide) (by decide),
   (extractors_total_but_dtype_and_values_float tags
      (.ofList [("value", .ofString "x")])).2.2.2 (Or.inl (by decide))⟩

/-! ## How the extractors relate -/

/-- C15: DType inference and the Value probe agree: on every argument map
without "dtype" on which `DTypeParameter::parse` succeeds, the dtype is FLOAT or
INT64, `ValueParameter::parse` returns a float-tagged scalar when it is FLOAT
and an int32- or int64-tagged scalar when it is INT64; so the scalar is never
bool-tagged when the dtype was inferred or defaulted. -/
theorem dtype_inference_agrees_with_value_probe (E : TensorProto_DataType)
    (helper : ArgumentHelper) (dtype : Int)
    (hd : helper.HasArgument "dtype" = false)
    (hok : DTypeParameter.parse E helper = .ok dtype) :
    (dtype = E.FLOAT ∨ dtype = E.INT64) ∧
    (dtype = E.FLOAT → (ValueParameter.parse helper).tag = .float) ∧
    (dtype = E.INT64 →
      (ValueParameter.parse helper).tag = .int32 ∨
      (ValueParameter.parse helper).tag = .int64) ∧
    (ValueParameter.parse helper).tag ≠ .bool := by
  have hn := E.distinct
  simp only [List.nodup_cons, List.mem_cons, List.mem_singleton, not_or] at hn
  have hFI : E.FLOAT ≠ E.INT64 := hn.2.1.2.2.2.1
  unfold DTypeParameter.parse at hok
  rw [GetSingleArgument_of_absent helper .int32 "dtype" E.FLOAT hd] at hok
  cases hv : helper.HasArgument "value"
  · have hf := HasSingleArgumentOfType_of_absent helper .float "value" hv
    have h32 := HasSingleArgumentOfType_of_absent helper .int32 "value" hv
    have h64 := HasSingleArgumentOfType_of_absent helper .int64 "value" hv
    have hb := HasSingleArgumentOfType_of_absent helper .bool "value" hv
    simp only [hd, hv, Bool.not_false, Bool.and_false, Bool.false_eq_true, if_false,
      Except.ok.injEq] at hok
    subst hok
    simp [ValueParameter.parse, hf, h32, h64, hb, IValue.tag, hFI]
  · cases hf : helper.HasSingleArgumentOfType .float "value"
    · cases h64 : helper.HasSingleArgumentOfType .int64 "value"
      · simp [hd, hv, hf, h64] at hok
      · simp only [hd, hv, hf, h64, Bool.not_false, Bool.and_self, if_true,
          Bool.false_eq_true, if_false, Except.ok.injEq] at hok
        subst hok
        cases h32 : helper.HasSingleArgumentOfType .int32 "value" <;>
          simp [ValueParameter.parse, hf, h32, h64, IValue.tag, Ne.symm hFI]
    · simp only [hd, hv, hf, Bool.not_false, Bool.and_self, if_true, Except.ok.injEq] at hok
      subst hok
      simp [ValueParameter.parse, hf, IValue.tag, hFI]

/-- Witness of C15: with value = 7 stored as int64 and no "dtype", the inferred
dtype is INT64 and the scalar is int64-tagged; on the empty map the dtype
defaults to FLOAT and the scalar is float-tagged. -/
theorem dtype_inference_agrees_with_value_probe_witness :
    ((ValueParameter.parse (.ofList [("value", .ofInt64 7)])).tag = .int32 ∨
     (ValueParameter.parse (.ofList [("value", .ofInt64 7)])).tag = .int64) ∧
    (ValueParameter.parse (.ofList [])).tag = .float :=
  ⟨(dtype_inference_agrees_with_value_probe tags (.ofList [("value", .ofInt64 7)])
      tags.INT64 (by decide) (by decide)).2.2.1 rfl,
   (dtype_inference_agrees_with_value_probe tags (.ofList [])
      tags.FLOAT (by decide) (by decide)).2.1 rfl⟩

/-- C16: the runtime dispatch of Values<float> coincides with the nominal
instantiations: Values<float> with "dtype" = FLOAT gives the same outcome as
Values<float> on the same map with "dtype" removed, with "dtype" = INT32 the
same outcome as Values<int32>, and with "dtype" = INT64 the same outcome as
Values<int64>. -/
theorem values_float_dispatch_matches_nominal (E : TensorProto_DataType)
    (helper : ArgumentHelper) :
    (helper.stored .int32 "dtype" = some E.FLOAT →
      ValuesParameter.parse E .float helper
        = ValuesParameter.parse E .float (helper.erase "dtype")) ∧
    (helper.stored .int32 "dtype" = some E.INT32 →
      ValuesParameter.parse E .float helper = ValuesParameter.parse E .int32 helper) ∧
    (helper.stored .int32 "dtype" = some E.INT64 →
      ValuesParameter.parse E .float helper = ValuesParameter.parse E .int64 helper) := by
  refine ⟨fun h => ?_, fun h => ?_, fun h => ?_⟩
  · have hab : (helper.erase "dtype").HasArgument "dtype" = false := by
      simp [ArgumentHelper.erase, ArgumentHelper.HasArgument]
    have hval : helper.arg_map "values" = (helper.erase "dtype").arg_map "values" := by
      have hne : ¬ ("values" = "dtype") := by decide
      simp [ArgumentHelper.erase, hne]
    have hr : ValuesParameter.parse E .float (helper.erase "dtype")
        = .ok (ValuesParameter.ExtractValues .float (helper.erase "dtype")) := by
      unfold ValuesParameter.parse
      simp [hab]
    rw [switch_on_tagOf E helper .float h, hr, ExtractValues_eq, ExtractValues_eq,
      GetRepeatedArgument_congr helper (helper.erase "dtype") .float "values" hval]
  · rw [switch_on_tagOf E helper .int32 h, parse_nonfloat E .int32 (by decide) helper]
  · rw [switch_on_tagOf E helper .int64 h, parse_nonfloat E .int64 (by decide) helper]

/-- Witness of C16: with "dtype" = INT64 and values = [1, 2, 3] stored as int64,
Values<float> gives what Values<int64> gives, the int64 tensor [1, 2, 3]. -/
theorem values_float_dispatch_matches_nominal_witness :
    ValuesParameter.parse tags .float
        (.ofList [("dtype", .ofInt32 tags.INT64), ("values", .ofInts64 [1, 2, 3])])
      = ValuesParameter.parse tags .int64
        (.ofList [("dtype", .ofInt32 tags.INT64), ("values", .ofInts64 [1, 2, 3])]) :=
  (values_float_dispatch_matches_nominal tags
    (.ofList [("dtype", .ofInt32 tags.INT64), ("values", .ofInts64 [1, 2, 3])])).2.2
    (by decide)

/-- C17: an absent "values" argument is not an error: on every argument map
without "values", `ValuesParameter<T>::parse` at `T` other than float, or with
"dtype" absent, returns the tensor of element type `T` with zero elements, and
`ValuesParameter<float>::parse` with one of FLOAT, DOUBLE, BOOL, INT32, INT64,
STRING stored under "dtype" returns the tensor with zero elements of the type
that tag names. -/
theorem values_absent_gives_empty_tensor (E : TensorProto_DataType) (helper : ArgumentHelper)
    (hv : helper.HasArgument "values" = false) :
    (∀ T : ElemType, T ≠ .float ∨ helper.HasArgument "dtype" = false →
      ValuesParameter.parse E T helper = .ok ⟨T, []⟩) ∧
    (∀ t : ElemType, helper.stored .int32 "dtype" = some (E.tagOf t) →
      ValuesParameter.parse E .float helper = .ok ⟨t, []⟩) := by
  refine ⟨fun T hT => ?_, fun t ht => ?_⟩
  · have hr : ValuesParameter.parse E T helper
        = .ok (ValuesParameter.ExtractValues T helper) := by
      rcases hT with h | h
      · exact parse_nonfloat E T h helper
      · unfold ValuesParameter.parse
        simp [h]
    rw [hr, ExtractValues_eq, GetRepeatedArgument_of_absent helper T "values" hv]
  · rw [switch_on_tagOf E helper t ht, ExtractValues_eq,
      GetRepeatedArgument_of_absent helper t "values" hv]

/-- Witness of C17: without "values", Values<int32> gives the empty int32
tensor, Values<float> with no "dtype" the empty float tensor, and Values<float>
with "dtype" = STRING the empty string tensor. -/
theorem values_absent_gives_empty_tensor_witness :
    ValuesParameter.parse tags .int32 (.ofList []) = .ok ⟨.int32, []⟩ ∧
    ValuesParameter.parse tags .float (.ofList []) = .ok ⟨.float, []⟩ ∧
    ValuesParameter.parse tags .float (.ofList [("dtype", .ofInt32 tags.STRING)])
      = .ok ⟨.string, []⟩ :=
  ⟨(values_absent_gives_empty_tensor tags (.ofList []) (by decide)).1 .int32
      (Or.inl (by decide)),
   (values_absent_gives_empty_tensor tags (.ofList []) (by decide)).1 .float
      (Or.inr (by decide)),
   (values_absent_gives_empty_tensor tags (.ofList [("dtype", .ofInt32 tags.STRING)])
      (by decide)).2 .string (by decide)⟩

end Filler
